import Mathlib

/-!
Verification of the solar-system ephemeris and camera-transition core
(`src/physics/ephemeris.js` and the camera manager module).

Numbers are modelled as exact rationals.  The host math library
(`Math.sin`, `Math.cos`, `Math.atan2`, `Math.sqrt`, `Math.PI`) is taken
as an abstract structure of rational-valued functions, so every
definition is executable once a concrete instance is supplied; theorems
quantify over the instance wherever the property does not depend on it.
-/

namespace Solar

/-- Truncation toward zero, the rounding used by the JS `%` operator. -/
def ratTrunc (x : ℚ) : ℤ := if 0 ≤ x then ⌊x⌋ else ⌈x⌉

/-- JS remainder `x % y`: `x - y * trunc(x / y)` (sign follows the dividend). -/
def jsRem (x y : ℚ) : ℚ := x - y * (ratTrunc (x / y) : ℚ)

/-- Abstract host math library: `Math.sin`, `Math.cos`, `Math.atan2`,
`Math.sqrt`, `Math.PI` as rational-valued operations. -/
structure JSMath where
  sin : ℚ → ℚ
  cos : ℚ → ℚ
  atan2 : ℚ → ℚ → ℚ
  sqrt : ℚ → ℚ
  pi : ℚ

/-- A trivial concrete instance, used to evaluate the model on concrete inputs. -/
def zeroMath : JSMath :=
  { sin := fun _ => 0, cos := fun _ => 0, atan2 := fun _ _ => 0,
    sqrt := fun _ => 0, pi := 0 }

/-- Model of `const DEG = Math.PI / 180`. -/
def DEG (math : JSMath) : ℚ := math.pi / 180

/-- JPL Table 1 elements at J2000 plus per-century rates, in source order:
`[a0, aRate, e0, eRate, I0, IRate, L0, LRate, wBar0, wBarRate, Omega0, OmegaRate]`. -/
def ELEMENTS : List (String × List ℚ) :=
  [("Mercury", [0.38709927, 0.00000037, 0.20563593, 0.00001906, 7.00497902, -0.00594749, 252.25032350, 149472.67411175, 77.45779628, 0.16047689, 48.33076593, -0.12534081]),
   ("Venus",   [0.72333566, 0.00000390, 0.00677672, -0.00004107, 3.39467605, -0.00078890, 181.97909950, 58517.81538729, 131.60246718, 0.00268329, 76.67984255, -0.27769418]),
   ("Earth",   [1.00000261, 0.00000562, 0.01671123, -0.00004392, -0.00001531, -0.01294668, 100.46457166, 35999.37244981, 102.93768193, 0.32327364, 0.0, 0.0]),
   ("Mars",    [1.52371034, 0.00001847, 0.09339410, 0.00007882, 1.84969142, -0.00813131, -4.55343205, 19140.30268499, -23.94362959, 0.44441088, 49.55953891, -0.29257343]),
   ("Jupiter", [5.20288700, -0.00011607, 0.04838624, -0.00013253, 1.30439695, -0.00183714, 34.39644051, 3034.74612775, 14.72847983, 0.21252668, 100.47390909, 0.20469106]),
   ("Saturn",  [9.53667594, -0.00125060, 0.05386179, -0.00050991, 2.48599187, 0.00193609, 49.95424423, 1222.49362201, 92.59887831, -0.41897216, 113.66242448, -0.28867794]),
   ("Uranus",  [19.18916464, -0.00196176, 0.04725744, -0.00004397, 0.77263783, -0.00242939, 313.23810451, 428.48202785, 170.95427630, 0.40805281, 74.01692503, 0.04240589]),
   ("Neptune", [30.06992276, 0.00026291, 0.00859048, 0.00005105, 1.77004347, 0.00035372, -55.12002969, 218.45945325, 44.96476227, -0.32241464, 131.78422574, -0.00508664])]

/-- Hard-coded element row for Pluto (same 12-slot layout as `ELEMENTS`). -/
def PLUTO_ELEMENTS : List ℚ :=
  [39.48211675, -0.00031596, 0.24882730, 0.00005170, 17.14001206, 0.00004818, 238.92903833, 145.20780515, 224.06891629, -0.04062942, 110.30393684, -0.01183482]

/-- Model of `dateToCenturies`: Julian centuries past J2000.0 from Unix
milliseconds. -/
def dateToCenturies (ms : ℚ) : ℚ :=
  ((ms / 86400000 + 2440587.5) - 2451545.0) / 36525.0

/-- Model of `dateToJD`: Julian date from Unix milliseconds. -/
def dateToJD (ms : ℚ) : ℚ := ms / 86400000 + 2440587.5

/-- Model of `normalizeDeg`:
`d = deg % 360; if (d > 180) d -= 360; if (d < -180) d += 360`. -/
def normalizeDeg (deg : ℚ) : ℚ :=
  let d0 := jsRem deg 360
  let d1 := if 180 < d0 then d0 - 360 else d0
  if d1 < -180 then d1 + 360 else d1

/-- Model of `eStar = (180 / Math.PI) * e`, eccentricity in degrees. -/
def eStarOf (math : JSMath) (e : ℚ) : ℚ := (180 / math.pi) * e

/-- Initial guess `E = M + eStar * sin(M * DEG)` of the Kepler solver. -/
def keplerInit (math : JSMath) (M e : ℚ) : ℚ :=
  M + eStarOf math e * math.sin (M * DEG math)

/-- One Newton correction `dE = (M - (E - eStar*sin(E*DEG))) / (1 - e*cos(E*DEG))`. -/
def keplerStep (math : JSMath) (M e E : ℚ) : ℚ :=
  (M - (E - eStarOf math e * math.sin (E * DEG math))) /
    (1 - e * math.cos (E * DEG math))

/-- The `for (let i = 0; i < 20; i++)` loop of `solveKepler`, fuel-indexed:
apply the correction, stop early when `|dE| < 1e-7`. -/
def keplerLoop (math : JSMath) (M e : ℚ) : ℕ → ℚ → ℚ
  | 0, E => E
  | n + 1, E =>
    let dE := keplerStep math M e E
    let E2 := E + dE
    if |dE| < 1e-7 then E2 else keplerLoop math M e n E2

/-- Model of `solveKepler(M, e)`: solve `M = E - eStar*sin(E)` (degrees) by
Newton iteration,
at most 20 steps. -/
def solveKepler (math : JSMath) (M e : ℚ) : ℚ :=
  keplerLoop math M e 20 (keplerInit math M e)

/-- The six osculating elements at a given epoch. -/
structure Elements where
  a : ℚ
  e : ℚ
  I : ℚ
  L : ℚ
  wBar : ℚ
  Omega : ℚ
deriving DecidableEq, Repr

/-- Elements at time `T`: `el[i] + el[i+1] * T` for each of the six slots
(lines `a = el[0] + el[1]*T`, … of `getPlanetPosition`). -/
def elementsAt (el : List ℚ) (T : ℚ) : Elements :=
  { a := el.getD 0 0 + el.getD 1 0 * T
    e := el.getD 2 0 + el.getD 3 0 * T
    I := el.getD 4 0 + el.getD 5 0 * T
    L := el.getD 6 0 + el.getD 7 0 * T
    wBar := el.getD 8 0 + el.getD 9 0 * T
    Omega := el.getD 10 0 + el.getD 11 0 * T }

/-- Property names that a plain JS object literal such as `ELEMENTS` inherits
from `Object.prototype`.  Reading any of them yields a truthy value (a
function, or `Object.prototype` itself for the dunder-proto accessor), never
`undefined`. -/
def OBJECT_PROTOTYPE_MEMBERS : List String :=
  ["constructor", "hasOwnProperty", "isPrototypeOf", "propertyIsEnumerable",
   "toLocaleString", "toString", "valueOf", "__proto__", "__defineGetter__",
   "__defineSetter__", "__lookupGetter__", "__lookupSetter__"]

/-- Possible values of the JS property access `ELEMENTS[name]`: an own key
yields its numeric row; a member inherited from `Object.prototype` yields a
truthy non-array value whose numeric indices read as `undefined`; every other
name yields `undefined`. -/
inductive PropValue where
  | arr (l : List ℚ)
  | protoMember
  | undef
deriving DecidableEq, Repr

/-- Model of the property access `ELEMENTS[name]`, including inherited
`Object.prototype` members. -/
def elementsIndex (name : String) : PropValue :=
  match ELEMENTS.lookup name with
  | some l => PropValue.arr l
  | none =>
    if name ∈ OBJECT_PROTOTYPE_MEMBERS then PropValue.protoMember
    else PropValue.undef

/-- Outcome of evaluating the six element expressions `el[i] + el[i+1]*T` of
`getPlanetPosition` for a given name and date.  When `el` is an inherited
`Object.prototype` member, each `el[i]` reads as `undefined`, so every one of
the six values is the JS `NaN` (`undefined` coerces to `NaN` and `NaN`
propagates through `+` and `*`); `missing` is the falsy case taken by the
`if (!el)` guard. -/
inductive ElementsAtDate where
  | elems (el : Elements)
  | nanElems
  | missing
deriving DecidableEq, Repr

/-- Element-row selection and evaluation of `getPlanetPosition`:
`el = name === 'Pluto' ? PLUTO_ELEMENTS : ELEMENTS[name]`, with the six
element values computed at `T`. -/
def elementsFor (name : String) (ms : ℚ) : ElementsAtDate :=
  let T := dateToCenturies ms
  match (if name = "Pluto" then PropValue.arr PLUTO_ELEMENTS else elementsIndex name) with
  | PropValue.arr l => ElementsAtDate.elems (elementsAt l T)
  | PropValue.protoMember => ElementsAtDate.nanElems
  | PropValue.undef => ElementsAtDate.missing

/-- Result record `{ angle, distance }` of the ephemeris. -/
structure EphResult where
  angle : ℚ
  distance : ℚ
deriving DecidableEq, Repr

/-- Observable result of `getPlanetPosition`: either a record of two rational
numbers, or the record `{angle: NaN, distance: NaN}`.  The latter is what the
pipeline produces from all-`NaN` elements, by ECMAScript `NaN` propagation:
`%`, `+`, `-`, `*`, `/` on `NaN` give `NaN`; `Math.sin`, `Math.cos`,
`Math.sqrt` of `NaN` and `Math.atan2` with a `NaN` argument give `NaN`; every
comparison with `NaN` is false, so `normalizeDeg` applies neither correction
and the Kepler loop never meets its break test and returns `NaN` after 20
iterations. -/
inductive EphOutcome where
  | res (r : EphResult)
  | nanRes
deriving DecidableEq, Repr

/-- Body of `getPlanetPosition` after the elements are known: mean anomaly,
Kepler solve, orbital-plane coordinates, rotation to the ecliptic, `atan2`/norm. -/
def positionFromElements (math : JSMath) (el : Elements) : EphResult :=
  let M := normalizeDeg (el.L - el.wBar)
  let E := solveKepler math M el.e
  let xPrime := el.a * (math.cos (E * DEG math) - el.e)
  let yPrime := el.a * math.sqrt (1 - el.e * el.e) * math.sin (E * DEG math)
  let omega := el.wBar - el.Omega
  let w := omega * DEG math
  let O := el.Omega * DEG math
  let Inc := el.I * DEG math
  let xEcl := (math.cos w * math.cos O - math.sin w * math.sin O * math.cos Inc) * xPrime
            + (-math.sin w * math.cos O - math.cos w * math.sin O * math.cos Inc) * yPrime
  let yEcl := (math.cos w * math.sin O + math.sin w * math.cos O * math.cos Inc) * xPrime
            + (-math.sin w * math.sin O + math.cos w * math.cos O * math.cos Inc) * yPrime
  { angle := math.atan2 yEcl xEcl
    distance := math.sqrt (xEcl * xEcl + yEcl * yEcl) }

/-- Model of `getPlanetPosition(name, date)`: a falsy row takes the
`if (!el)` default `{angle: 0, distance: 1}`; a truthy inherited member slips
past the guard and the all-`NaN` elements make the whole pipeline return
`{angle: NaN, distance: NaN}`; a real row runs the numeric pipeline. -/
def getPlanetPosition (math : JSMath) (name : String) (ms : ℚ) : EphOutcome :=
  match elementsFor name ms with
  | ElementsAtDate.missing => EphOutcome.res { angle := 0, distance := 1 }
  | ElementsAtDate.nanElems => EphOutcome.nanRes
  | ElementsAtDate.elems el => EphOutcome.res (positionFromElements math el)

/-- Model of `getAllPositions(date)`: the `ELEMENTS` keys followed by Pluto,
each paired with its position, in insertion order. -/
def getAllPositions (math : JSMath) (ms : ℚ) : List (String × EphOutcome) :=
  (ELEMENTS.map Prod.fst ++ ["Pluto"]).map fun n => (n, getPlanetPosition math n ms)

/-! ## Camera manager

The clock `performance.now()` is modelled as an injected time value, and the
mesh lookup `getWorldPosition` as an injected map `ℕ → Vec3` from mesh handles
to current world positions (re-sampled at every update call, as in the source). -/

/-- Model of `THREE.Vector3` with exact rational components. -/
structure Vec3 where
  x : ℚ
  y : ℚ
  z : ℚ
deriving DecidableEq, Repr

/-- Componentwise vector subtraction (`subVectors`). -/
def Vec3.sub (v w : Vec3) : Vec3 := ⟨v.x - w.x, v.y - w.y, v.z - w.z⟩

/-- Componentwise vector addition (`add`). -/
def Vec3.add (v w : Vec3) : Vec3 := ⟨v.x + w.x, v.y + w.y, v.z + w.z⟩

/-- Model of `multiplyScalar`. -/
def Vec3.smul (v : Vec3) (s : ℚ) : Vec3 := ⟨v.x * s, v.y * s, v.z * s⟩

/-- Model of `lerpVectors(v1, v2, alpha)`: `v1 + (v2 - v1) * alpha`,
componentwise.
`Vector3.lerp(v, alpha)` computes the same formula in place. -/
def lerpV (v w : Vec3) (alpha : ℚ) : Vec3 :=
  ⟨v.x + (w.x - v.x) * alpha, v.y + (w.y - v.y) * alpha, v.z + (w.z - v.z) * alpha⟩

/-- Model of `Vector3.normalize()`: divide by `length() || 1`. -/
def normalizeV (math : JSMath) (v : Vec3) : Vec3 :=
  let l := math.sqrt (v.x * v.x + v.y * v.y + v.z * v.z)
  let ln := if l = 0 then 1 else l
  ⟨v.x / ln, v.y / ln, v.z / ln⟩

/-- Constant `DEFAULT_CAM_POS = new THREE.Vector3(15, 20, 30)`. -/
def DEFAULT_CAM_POS : Vec3 := ⟨15, 20, 30⟩

/-- Constant `DEFAULT_CAM_TARGET = new THREE.Vector3(0, 0, 0)`. -/
def DEFAULT_CAM_TARGET : Vec3 := ⟨0, 0, 0⟩

/-- The `_transition` record:
`{ mesh, staticTarget, zoomDist, startPos, startTarget, startTime, duration, explicitEndPos }`. -/
structure Transition where
  mesh : Option ℕ
  staticTarget : Vec3
  zoomDist : ℚ
  startPos : Vec3
  startTarget : Vec3
  startTime : ℚ
  duration : ℚ
  explicitEndPos : Option Vec3
deriving DecidableEq, Repr

/-- Module state of the camera manager: the `_transition` variable together
with the externally visible camera pose it reads and writes
(`camera.position` and `controls.target`). -/
structure CamState where
  transition : Option Transition
  cameraPos : Vec3
  ctrlTarget : Vec3
deriving DecidableEq, Repr

/-- Model of
`smoothCameraTo(mesh, staticTarget, zoomDist, camera, controls, explicitEndPos)`:
overwrite `_transition` with a fresh record capturing the current pose and clock. -/
def smoothCameraTo (mesh : Option ℕ) (staticTarget : Vec3) (zoomDist : ℚ)
    (explicitEndPos : Option Vec3) (now : ℚ) (s : CamState) : CamState :=
  { s with
      transition := some
        { mesh := mesh
          staticTarget := staticTarget
          zoomDist := zoomDist
          startPos := s.cameraPos
          startTarget := s.ctrlTarget
          startTime := now
          duration := 1600
          explicitEndPos := explicitEndPos } }

/-- The live target of a transition: the current world position of the mesh
when a mesh is set, the captured static target otherwise. -/
def liveTargetOf (tr : Transition) (worldPos : ℕ → Vec3) : Vec3 :=
  match tr.mesh with
  | some m => worldPos m
  | none => tr.staticTarget

/-- The end camera position computed by an update call: the explicit end
position when one was supplied, otherwise
`liveTarget + normalize(startPos - startTarget) * zoomDist` with the height
component clamped to at least `zoomDist * 0.3`. -/
def endPosOf (math : JSMath) (tr : Transition) (liveTarget : Vec3) : Vec3 :=
  match tr.explicitEndPos with
  | some p => p
  | none =>
    let dir := normalizeV math (Vec3.sub tr.startPos tr.startTarget)
    let e := Vec3.add liveTarget (Vec3.smul dir tr.zoomDist)
    { e with y := max e.y (tr.zoomDist * 0.3) }

/-- Model of `updateCamera(camera, controls, lockedTarget)` at clock `now`:
advance an
active transition (quartic ease-in-out, live re-targeting, clearing the record
once raw progress reaches 1) and return `true`; otherwise ease the look-target
toward a locked anchor and return `false`. -/
def updateCamera (math : JSMath) (now : ℚ) (worldPos : ℕ → Vec3)
    (lockedTarget : Option ℕ) (s : CamState) : CamState × Bool :=
  match s.transition with
  | some tr =>
    let elapsed := now - tr.startTime
    let rawT := min (elapsed / tr.duration) 1
    let t := if rawT < 1 / 2 then 8 * rawT * rawT * rawT * rawT
             else 1 - ((-2) * rawT + 2) ^ 4 / 2
    let liveTarget := liveTargetOf tr worldPos
    let endPos := endPosOf math tr liveTarget
    ({ transition := if 1 ≤ rawT then none else some tr
       cameraPos := lerpV tr.startPos endPos t
       ctrlTarget := lerpV tr.startTarget liveTarget t }, true)
  | none =>
    match lockedTarget with
    | some m => ({ s with ctrlTarget := lerpV s.ctrlTarget (worldPos m) 0.08 }, false)
    | none => (s, false)

/-- Model of `cancelTransition()`. -/
def cancelTransition (s : CamState) : CamState := { s with transition := none }

/-! ## Helper lemmas -/

/-- Interpolation at parameter 1 lands exactly on the second endpoint. -/
lemma lerpV_one (v w : Vec3) : lerpV v w 1 = w := by
  cases v
  cases w
  simp [lerpV]

/-- The key list of `getAllPositions` is the eight `ELEMENTS` keys in order
followed by Pluto. -/
lemma getAllPositions_keys (math : JSMath) (ms : ℚ) :
    (getAllPositions math ms).map Prod.fst =
      ["Mercury", "Venus", "Earth", "Mars", "Jupiter", "Saturn", "Uranus",
       "Neptune", "Pluto"] := by
  simp [getAllPositions, List.map_map, ELEMENTS]

/-- An update call on a completed transition: final pose, cleared record,
still reported active. -/
lemma updateCamera_complete (math : JSMath) (now : ℚ) (worldPos : ℕ → Vec3)
    (lockedTarget : Option ℕ) (s : CamState) (tr : Transition)
    (hs : s.transition = some tr) (hd : 0 < tr.duration)
    (h : tr.duration ≤ now - tr.startTime) :
    updateCamera math now worldPos lockedTarget s =
      ({ transition := none
         cameraPos := endPosOf math tr (liveTargetOf tr worldPos)
         ctrlTarget := liveTargetOf tr worldPos }, true) := by
  obtain ⟨st, cp, ct⟩ := s
  simp only at hs
  subst hs
  have h1 : (1 : ℚ) ≤ (now - tr.startTime) / tr.duration := (one_le_div hd).mpr h
  simp only [updateCamera, min_eq_right h1]
  have h2 : ¬ ((1 : ℚ) < 1 / 2) := by norm_num
  have h3 : (1 : ℚ) - ((-2) * 1 + 2) ^ 4 / 2 = 1 := by norm_num
  simp only [if_neg h2, h3, lerpV_one, if_pos (le_refl (1 : ℚ))]

/-- With no stored transition, an update call reports `false`. -/
lemma updateCamera_idle (math : JSMath) (now : ℚ) (worldPos : ℕ → Vec3)
    (lockedTarget : Option ℕ) (s : CamState) (hs : s.transition = none) :
    (updateCamera math now worldPos lockedTarget s).2 = false := by
  obtain ⟨st, cp, ct⟩ := s
  simp only at hs
  subst hs
  cases lockedTarget <;> rfl

/-- The JS remainder by 360 lies strictly between `-360` and `360` and differs
from the argument by an integer multiple of 360. -/
lemma jsRem_360 (d : ℚ) :
    -360 < jsRem d 360 ∧ jsRem d 360 < 360 ∧
      ∃ t : ℤ, d - jsRem d 360 = 360 * (t : ℚ) := by
  have hd : 360 * (d / 360) = d := by field_simp
  unfold jsRem ratTrunc
  by_cases h0 : 0 ≤ d / 360
  · simp only [if_pos h0]
    have hf1 : ((⌊d / 360⌋ : ℤ) : ℚ) ≤ d / 360 := Int.floor_le _
    have hf2 : d / 360 < (⌊d / 360⌋ : ℤ) + 1 := Int.lt_floor_add_one _
    have hm1 : 360 * ((⌊d / 360⌋ : ℤ) : ℚ) ≤ d := by
      have := mul_le_mul_of_nonneg_left hf1 (by norm_num : (0 : ℚ) ≤ 360)
      linarith [hd]
    have hm2 : d < 360 * ((⌊d / 360⌋ : ℤ) : ℚ) + 360 := by
      have := mul_lt_mul_of_pos_left hf2 (by norm_num : (0 : ℚ) < 360)
      nlinarith [hd]
    exact ⟨by linarith, by linarith, ⟨⌊d / 360⌋, by ring⟩⟩
  · simp only [if_neg h0]
    have hf1 : d / 360 ≤ ((⌈d / 360⌉ : ℤ) : ℚ) := Int.le_ceil _
    have hf2 : ((⌈d / 360⌉ : ℤ) : ℚ) < d / 360 + 1 := Int.ceil_lt_add_one _
    have hm1 : d ≤ 360 * ((⌈d / 360⌉ : ℤ) : ℚ) := by
      have := mul_le_mul_of_nonneg_left hf1 (by norm_num : (0 : ℚ) ≤ 360)
      linarith [hd]
    have hm2 : 360 * ((⌈d / 360⌉ : ℤ) : ℚ) < d + 360 := by
      have := mul_lt_mul_of_pos_left hf2 (by norm_num : (0 : ℚ) < 360)
      nlinarith [hd]
    exact ⟨by linarith, by linarith, ⟨⌈d / 360⌉, by ring⟩⟩

/-! ## Claims -/

/-- Claim C3, counterexample: at the input `-180` the normalization returns
`-180` itself, which is outside the claimed half-open range `(-180, 180]`. -/
theorem C3_counterexample : ¬ (-180 < normalizeDeg (-180)) := by
  have hceil : ⌈(-(1 / 2) : ℚ)⌉ = (0 : ℤ) := by norm_num
  have h : normalizeDeg (-180) = -180 := by
    norm_num [normalizeDeg, jsRem, ratTrunc, hceil]
  rw [h]
  norm_num

/-- Claim C3, amended: the normalization maps every rational input into the
CLOSED range `[-180, 180]` (the endpoint `-180` is attained, e.g. at `-180`),
and the result is congruent to the input modulo 360. -/
theorem C3_normalize_range (d : ℚ) :
    (-180 ≤ normalizeDeg d ∧ normalizeDeg d ≤ 180) ∧
      ∃ k : ℤ, d - normalizeDeg d = 360 * (k : ℚ) := by
  obtain ⟨h1, h2, t, ht⟩ := jsRem_360 d
  unfold normalizeDeg
  set r := jsRem d 360 with hr
  by_cases hA : 180 < r
  · have hna : ¬ (r - 360 < -180) := by linarith
    simp only [if_pos hA, if_neg hna]
    exact ⟨⟨by linarith, by linarith⟩, ⟨t + 1, by push_cast; linarith⟩⟩
  · simp only [if_neg hA]
    by_cases hB : r < -180
    · simp only [if_pos hB]
      exact ⟨⟨by linarith, by linarith⟩, ⟨t - 1, by push_cast; linarith⟩⟩
    · simp only [if_neg hB]
      exact ⟨⟨by linarith [not_lt.mp hB], by linarith [not_lt.mp hA]⟩, ⟨t, ht⟩⟩

/-- Claim C1, counterexample: the orbital elements of Pluto as used by
`getPlanetPosition` are NOT independent of the date — at Unix time 0
(`T = -0.3` Julian centuries) and at the J2000 epoch (`T = 0`) the element
values differ, because `PLUTO_ELEMENTS` carries secular rates that are applied
by the same `el0 + rate * T` formula as for the planets. -/
theorem C1_counterexample :
    elementsFor "Pluto" 0 ≠ elementsFor "Pluto" 946728000000 := by
  intro h
  have ha := congrArg
    (fun o => match o with | ElementsAtDate.elems el => el.a | _ => 0) h
  norm_num [elementsFor, elementsAt, PLUTO_ELEMENTS, dateToCenturies] at ha

/-- Claim C1, amended: Pluto is modeled through its own hard-coded element row
`PLUTO_ELEMENTS`, and each of its six orbital elements receives the secular-rate
contribution `rate * T`, exactly as for the eight planets. -/
theorem C1_pluto_elements_with_rates (ms : ℚ) :
    elementsFor "Pluto" ms = ElementsAtDate.elems
      { a := 39.48211675 + -0.00031596 * dateToCenturies ms
        e := 0.24882730 + 0.00005170 * dateToCenturies ms
        I := 17.14001206 + 0.00004818 * dateToCenturies ms
        L := 238.92903833 + 145.20780515 * dateToCenturies ms
        wBar := 224.06891629 + -0.04062942 * dateToCenturies ms
        Omega := 110.30393684 + -0.01183482 * dateToCenturies ms } := by
  rfl

/-- Claim C2, counterexample: at the concrete date `ms = 0` (with a concrete
host math instance) there is no family of ten distinct body identifiers all
present in `getAllPositions` — the mapping has exactly nine keys. -/
theorem C2_counterexample :
    ¬ ∃ ids : List String, ids.Nodup ∧ ids.length = 10 ∧
        ∀ n ∈ ids, ∃ p, (n, p) ∈ getAllPositions zeroMath 0 := by
  rintro ⟨ids, hnd, hlen, hmem⟩
  have hsub : ids.toFinset ⊆ ((getAllPositions zeroMath 0).map Prod.fst).toFinset := by
    intro n hn
    rw [List.mem_toFinset] at hn ⊢
    obtain ⟨p, hp⟩ := hmem n hn
    exact List.mem_map.mpr ⟨(n, p), hp, rfl⟩
  have hcard := Finset.card_le_card hsub
  rw [List.toFinset_card_of_nodup hnd, hlen, getAllPositions_keys] at hcard
  revert hcard
  decide

/-- Claim C2, amended: nine bodies are modeled — for every date,
`getAllPositions` returns one entry per body for exactly the eight classical
planets in IAU order plus Pluto, nine distinct identifiers in all. -/
theorem C2_nine_bodies (math : JSMath) (ms : ℚ) :
    (getAllPositions math ms).map Prod.fst =
        ["Mercury", "Venus", "Earth", "Mars", "Jupiter", "Saturn", "Uranus",
         "Neptune", "Pluto"] ∧
      ((getAllPositions math ms).map Prod.fst).Nodup ∧
      (getAllPositions math ms).length = 9 := by
  have hk := getAllPositions_keys math ms
  refine ⟨hk, ?_, ?_⟩
  · rw [hk]
    decide
  · have := congrArg List.length hk
    rw [List.length_map] at this
    exact this

/-- Claim C4: a transition begun with an explicit end position `P` ends with
the camera exactly at `P` once raw progress has reached 1, for every start
pose, static target and stand-off distance. -/
theorem C4_explicit_end (math : JSMath) (mesh : Option ℕ) (st : Vec3) (d : ℚ)
    (P : Vec3) (now0 now1 : ℚ) (worldPos : ℕ → Vec3) (locked : Option ℕ)
    (s : CamState) (h : 1600 ≤ now1 - now0) :
    ((updateCamera math now1 worldPos locked
        (smoothCameraTo mesh st d (some P) now0 s)).1).cameraPos = P := by
  rw [updateCamera_complete math now1 worldPos locked _ _ rfl (by norm_num) h]
  rfl

/-- Claim C4, witness. -/
theorem C4_explicit_end_witness :
    ((updateCamera zeroMath 1600 (fun _ => ⟨0, 0, 0⟩) none
        (smoothCameraTo none ⟨0, 0, 0⟩ 5 (some ⟨1, 2, 3⟩) 0
          { transition := none, cameraPos := ⟨4, 5, 6⟩,
            ctrlTarget := ⟨0, 0, 0⟩ })).1).cameraPos = ⟨1, 2, 3⟩ :=
  C4_explicit_end zeroMath none ⟨0, 0, 0⟩ 5 ⟨1, 2, 3⟩ 0 1600
    (fun _ => ⟨0, 0, 0⟩) none _ (by norm_num)

/-- Claim C5: `getPlanetPosition` is deterministic — two calls with the same
body identifier and an identical date return identical results.  In this
embedding the function is pure by construction (the source reads only the
module constants and the injected math library), so no observable state can
change. -/
theorem C5_deterministic (math : JSMath) (name : String) (ms1 ms2 : ℚ)
    (h : ms1 = ms2) :
    getPlanetPosition math name ms1 = getPlanetPosition math name ms2 := by
  rw [h]

/-- Claim C5, witness. -/
theorem C5_deterministic_witness :
    getPlanetPosition zeroMath "Earth" 0 = getPlanetPosition zeroMath "Earth" 0 :=
  C5_deterministic zeroMath "Earth" 0 0 rfl

/-- Claim C6, counterexample: the identifier `toString` has no tabulated
orbital elements, yet `getPlanetPosition` does NOT return the benign default —
the property access finds the inherited `Object.prototype` member, which is
truthy and slips past the `if (!el)` guard, and the all-`NaN` elements yield
`{angle: NaN, distance: NaN}`. -/
theorem C6_counterexample :
    getPlanetPosition zeroMath "toString" 0 = EphOutcome.nanRes ∧
      getPlanetPosition zeroMath "toString" 0 ≠
        EphOutcome.res { angle := 0, distance := 1 } := by
  constructor
  · rfl
  · decide

/-- Claim C6, amended: a body identifier with no tabulated elements (absent
from the own keys of `ELEMENTS`, different from Pluto, and not the name of a
member inherited from `Object.prototype`) yields the benign default
`{angle: 0, distance: 1}`; the function is total, so no failure occurs.
Identifiers naming inherited `Object.prototype` members instead bypass the
guard and produce the all-`NaN` result. -/
theorem C6_unknown_default (math : JSMath) (ms : ℚ) (name : String)
    (h1 : ELEMENTS.lookup name = none) (h2 : name ≠ "Pluto")
    (h3 : name ∉ OBJECT_PROTOTYPE_MEMBERS) :
    getPlanetPosition math name ms = EphOutcome.res { angle := 0, distance := 1 } := by
  simp [getPlanetPosition, elementsFor, elementsIndex, h1, h2, h3]

/-- Claim C6, witness: the identifier `Sun` has no orbital data, is no
inherited member name, and returns the default. -/
theorem C6_unknown_default_witness :
    ELEMENTS.lookup "Sun" = none ∧ "Sun" ≠ "Pluto" ∧
      "Sun" ∉ OBJECT_PROTOTYPE_MEMBERS ∧
      getPlanetPosition zeroMath "Sun" 0 = EphOutcome.res { angle := 0, distance := 1 } :=
  ⟨by decide, by decide, by decide,
    C6_unknown_default zeroMath 0 "Sun" (by decide) (by decide) (by decide)⟩

/-- Claim C7: two consecutive `smoothCameraTo` calls with no update between
them leave exactly the state the second call alone would produce — the first
transition record is discarded whole, with no blending. -/
theorem C7_last_writer_wins (m1 m2 : Option ℕ) (st1 st2 : Vec3) (z1 z2 : ℚ)
    (e1 e2 : Option Vec3) (n1 n2 : ℚ) (s : CamState) :
    smoothCameraTo m2 st2 z2 e2 n2 (smoothCameraTo m1 st1 z1 e1 n1 s) =
      smoothCameraTo m2 st2 z2 e2 n2 s := by
  rfl

/-- Claim C8: for every transition without an explicit end position, the end
camera position computed by an update call has height component at least
`0.3 * zoomDist` (the clamp `endPos.y = max(endPos.y, zoomDist * 0.3)`). -/
theorem C8_min_height (math : JSMath) (tr : Transition) (live : Vec3)
    (h : tr.explicitEndPos = none) :
    (endPosOf math tr live).y ≥ 0.3 * tr.zoomDist := by
  obtain ⟨m, st, z, sp, stg, t0, du, ex⟩ := tr
  simp only at h
  subst h
  simp only [endPosOf, ge_iff_le]
  rw [mul_comm]
  exact le_max_right _ _

/-- Claim C8, witness. -/
theorem C8_min_height_witness :
    (Transition.mk none ⟨0, 0, 0⟩ 10 ⟨1, 1, 1⟩ ⟨0, 0, 0⟩ 0 1600 none).explicitEndPos
        = none ∧
      (endPosOf zeroMath
          (Transition.mk none ⟨0, 0, 0⟩ 10 ⟨1, 1, 1⟩ ⟨0, 0, 0⟩ 0 1600 none)
          ⟨0, 0, 0⟩).y ≥
        0.3 * (Transition.mk none ⟨0, 0, 0⟩ 10 ⟨1, 1, 1⟩ ⟨0, 0, 0⟩ 0 1600
            none).zoomDist :=
  ⟨rfl, C8_min_height zeroMath _ _ rfl⟩

/-- Claim C10: an update call on a transition whose elapsed time has reached
its duration writes the final (`t = 1`) camera position and look-target,
clears the transition record, and still returns `true`; any following call
(with the transition cleared) returns `false`. -/
theorem C10_completion_frame (math : JSMath) (now : ℚ) (worldPos : ℕ → Vec3)
    (locked : Option ℕ) (s : CamState) (tr : Transition)
    (hs : s.transition = some tr) (hd : 0 < tr.duration)
    (h : tr.duration ≤ now - tr.startTime) :
    (updateCamera math now worldPos locked s).2 = true ∧
      (updateCamera math now worldPos locked s).1.transition = none ∧
      (updateCamera math now worldPos locked s).1.cameraPos =
        endPosOf math tr (liveTargetOf tr worldPos) ∧
      (updateCamera math now worldPos locked s).1.ctrlTarget =
        liveTargetOf tr worldPos ∧
      ∀ (now2 : ℚ) (worldPos2 : ℕ → Vec3) (locked2 : Option ℕ),
        (updateCamera math now2 worldPos2 locked2
            (updateCamera math now worldPos locked s).1).2 = false := by
  rw [updateCamera_complete math now worldPos locked s tr hs hd h]
  refine ⟨rfl, rfl, rfl, rfl, ?_⟩
  intro now2 worldPos2 locked2
  exact updateCamera_idle math now2 worldPos2 locked2 _ rfl

/-- Claim C10, witness. -/
theorem C10_completion_frame_witness :
    (updateCamera zeroMath 1600 (fun _ => ⟨0, 0, 0⟩) none
        { transition := some
            (Transition.mk none ⟨7, 8, 9⟩ 10 ⟨0, 0, 0⟩ ⟨0, 0, 0⟩ 0 1600
              (some ⟨1, 2, 3⟩)),
          cameraPos := ⟨0, 0, 0⟩, ctrlTarget := ⟨0, 0, 0⟩ }).2 = true ∧
      (updateCamera zeroMath 1600 (fun _ => ⟨0, 0, 0⟩) none
          { transition := some
              (Transition.mk none ⟨7, 8, 9⟩ 10 ⟨0, 0, 0⟩ ⟨0, 0, 0⟩ 0 1600
                (some ⟨1, 2, 3⟩)),
            cameraPos := ⟨0, 0, 0⟩, ctrlTarget := ⟨0, 0, 0⟩ }).1.transition = none ∧
      (updateCamera zeroMath 1600 (fun _ => ⟨0, 0, 0⟩) none
          { transition := some
              (Transition.mk none ⟨7, 8, 9⟩ 10 ⟨0, 0, 0⟩ ⟨0, 0, 0⟩ 0 1600
                (some ⟨1, 2, 3⟩)),
            cameraPos := ⟨0, 0, 0⟩, ctrlTarget := ⟨0, 0, 0⟩ }).1.cameraPos =
        endPosOf zeroMath
          (Transition.mk none ⟨7, 8, 9⟩ 10 ⟨0, 0, 0⟩ ⟨0, 0, 0⟩ 0 1600
            (some ⟨1, 2, 3⟩))
          (liveTargetOf
            (Transition.mk none ⟨7, 8, 9⟩ 10 ⟨0, 0, 0⟩ ⟨0, 0, 0⟩ 0 1600
              (some ⟨1, 2, 3⟩))
            (fun _ => ⟨0, 0, 0⟩)) ∧
      (updateCamera zeroMath 1600 (fun _ => ⟨0, 0, 0⟩) none
          { transition := some
              (Transition.mk none ⟨7, 8, 9⟩ 10 ⟨0, 0, 0⟩ ⟨0, 0, 0⟩ 0 1600
                (some ⟨1, 2, 3⟩)),
            cameraPos := ⟨0, 0, 0⟩, ctrlTarget := ⟨0, 0, 0⟩ }).1.ctrlTarget =
        liveTargetOf
          (Transition.mk none ⟨7, 8, 9⟩ 10 ⟨0, 0, 0⟩ ⟨0, 0, 0⟩ 0 1600
            (some ⟨1, 2, 3⟩))
          (fun _ => ⟨0, 0, 0⟩) ∧
      ∀ (now2 : ℚ) (worldPos2 : ℕ → Vec3) (locked2 : Option ℕ),
        (updateCamera zeroMath now2 worldPos2 locked2
            (updateCamera zeroMath 1600 (fun _ => ⟨0, 0, 0⟩) none
                { transition := some
                    (Transition.mk none ⟨7, 8, 9⟩ 10 ⟨0, 0, 0⟩ ⟨0, 0, 0⟩ 0 1600
                      (some ⟨1, 2, 3⟩)),
                  cameraPos := ⟨0, 0, 0⟩, ctrlTarget := ⟨0, 0, 0⟩ }).1).2 =
          false :=
  C10_completion_frame zeroMath 1600 (fun _ => ⟨0, 0, 0⟩) none _ _ rfl
    (by norm_num) (by norm_num)

/-- Claim C9: for zero eccentricity the Kepler solver returns the mean anomaly
exactly, and the first Newton correction is exactly zero. -/
theorem C9_kepler_circular (math : JSMath) (M : ℚ) :
    solveKepler math M 0 = M ∧ keplerStep math M 0 (keplerInit math M 0) = 0 := by
  have he : eStarOf math 0 = 0 := mul_zero _
  have hi : keplerInit math M 0 = M := by simp [keplerInit, he]
  have hs : keplerStep math M 0 M = 0 := by simp [keplerStep, he]
  constructor
  · show keplerLoop math M 0 20 (keplerInit math M 0) = M
    rw [hi]
    show keplerLoop math M 0 (19 + 1) M = M
    rw [keplerLoop]
    simp [hs]
    norm_num
  · rw [hi]
    exact hs

end Solar
